import Mathlib

/-!
Shallow embedding of `src/ezviz/switch.py` (EZVIZ smart-plug platform).

Python dicts with possibly-missing keys are modelled as structures whose
fields are `Option`-valued: `none` means the key is absent, and code that
indexes an absent key raises `KeyError` (here: `Except.error (.keyError k)`).
Membership tests (`"K" in d`) are modelled by matching on the `Option`.
The external `EzvizClient` is modelled by the data its calls return
(login token, device mapping); side-effecting calls are recorded in a
trace of `Call` values.
-/

namespace Ezviz

/-- A Python exception, as raised by the code under study. -/
inductive PyErr where
  | keyError (key : String)
  | exception (msg : String)
  deriving Repr, DecidableEq

/-- One entry of the switch-capability list: `{"type": ..., "enable": ...}`. -/
structure SwitchEntry where
  type : Int
  enable : Int
  deriving Repr, DecidableEq

/-- The `resourceInfos` group; both keys may be missing from the dict. -/
structure ResourceInfos where
  resourceName : Option String
  deviceSerial : Option String
  deriving Repr, DecidableEq

/-- The `deviceInfos` group as used by `get_plug`; key may be missing. -/
structure DeviceInfos where
  deviceSerial : Option String
  deriving Repr, DecidableEq

/-- The `optionals` sub-dict of the `STATUS` group. -/
structure StatusOptionals where
  OnlineStatus : Option Int
  deriving Repr, DecidableEq

/-- The `STATUS` group. -/
structure StatusGroup where
  optionals : Option StatusOptionals
  deriving Repr, DecidableEq

/-- A raw device record (`plug : dict`): a vendor-shaped nested mapping.
Each capability group is `none` when its key is absent from the dict.
The keys `SWITCH` and `SWTITCH` are distinct dict keys and are modelled
as distinct fields, exactly as the source indexes them. -/
structure Plug where
  resourceInfos : Option ResourceInfos
  deviceInfos : Option DeviceInfos
  SWITCH : Option (List SwitchEntry)
  SWTITCH : Option (List SwitchEntry)
  STATUS : Option StatusGroup
  deriving Repr, DecidableEq

/-- The result of `parse_plug_data`: `(name, serial, state, online_status)`. -/
abbrev ParsedData := Option String × Option String × Option Int × Option Int

/-- The `if "STATUS" in plug:` block of `parse_plug_data`; every level
is membership-tested, so it never raises. -/
def parseStatus (plug : Plug) : Option Int :=
  match plug.STATUS with
  | some st =>
    match st.optionals with
    | some o => o.OnlineStatus
    | none => none
  | none => none

/-- The `if "SWITCH" in plug:` block of `parse_plug_data`: presence is
tested on key `SWITCH`, but the record is then indexed at key `SWTITCH`,
exactly as in the source. -/
def parseSwitch (plug : Plug) (name serial : Option String) :
    Except PyErr ParsedData :=
  match plug.SWITCH with
  | some _ =>
    match plug.SWTITCH with
    | none => .error (.keyError "SWTITCH")
    | some switch =>
      let switch_states := (switch.filter (fun d => d.type = 14)).map
        (fun d => d.enable)
      .ok (name, serial, switch_states.head?, parseStatus plug)
  | none => .ok (name, serial, none, parseStatus plug)

/-- `parse_plug_data(plug)`: mirrors the Python function statement by
statement.  `name`/`serial` are read by *indexing* inside
`resourceInfos` (raising `KeyError` on a missing key); the switch and
status blocks are `parseSwitch` and `parseStatus`. -/
def parse_plug_data (plug : Plug) : Except PyErr ParsedData :=
  match plug.resourceInfos with
  | some ri =>
    match ri.resourceName with
    | none => .error (.keyError "resourceName")
    | some n =>
      match ri.deviceSerial with
      | none => .error (.keyError "deviceSerial")
      | some s => parseSwitch plug (some n) (some s)
  | none => parseSwitch plug none none

/-- The external client, modelled by the data its calls return:
`login()` returns `token` (`none` models a falsy/absent token, and an
empty string is also falsy), `get_device_infos()` returns the mapping
`devices` from device id to raw record. -/
structure EzvizClient where
  token : Option String
  devices : List (String × Plug)
  deriving Repr, DecidableEq

/-- Python truthiness of an optional string: `not x` holds for `None`
and for the empty string. -/
def pyFalsy : Option String → Bool
  | none => true
  | some s => s.isEmpty

/-- `get_plugs(client)`: collects the values of the `get_device_infos`
mapping, in order, into a sequence. -/
def get_plugs (c : EzvizClient) : List Plug :=
  c.devices.map Prod.snd

/-- The serial `get_plug` compares: `dev["deviceInfos"]["deviceSerial"]`,
raising `KeyError` when either key is missing. -/
def devInfoSerial (dev : Plug) : Except PyErr String :=
  match dev.deviceInfos with
  | none => .error (.keyError "deviceInfos")
  | some di =>
    match di.deviceSerial with
    | none => .error (.keyError "deviceSerial")
    | some s => .ok s

/-- The loop body of `get_plug` over an already-retrieved plug list.
`target` is `Option String` because callers (`EZPlug.update`) pass the
adapter's possibly-`None` serial through unchanged. -/
def get_plug_loop (target : Option String) : List Plug → Except PyErr Plug
  | [] => .error (.exception "No devices found")
  | dev :: rest =>
    match devInfoSerial dev with
    | .error e => .error e
    | .ok s => if some s = target then .ok dev else get_plug_loop target rest

/-- `get_plug(client, target_serial)`: linear scan of `get_plugs`,
returning the first record whose `deviceInfos.deviceSerial` equals the
target, and raising `Exception("No devices found")` if none matches. -/
def get_plug (c : EzvizClient) (target_serial : Option String) :
    Except PyErr Plug :=
  get_plug_loop target_serial (get_plugs c)

/-- `get_plug_data(client, target_serial)`: find then parse. -/
def get_plug_data (c : EzvizClient) (target_serial : Option String) :
    Except PyErr ParsedData :=
  match get_plug c target_serial with
  | .error e => .error e
  | .ok plug => parse_plug_data plug

/-- A side-effecting call issued to the external client. -/
inductive Call where
  | login
  | getDeviceInfos
  | switchStatus (serial : Option String) (capType : Int) (value : Int)
  deriving Repr, DecidableEq

/-- `set_plug_state(client, target_serial, state)`: issues exactly one
`switch_status(target_serial, 14, state)` call. -/
def set_plug_state (target_serial : Option String) (state : Int) :
    List Call :=
  [Call.switchStatus target_serial 14 state]

/-- The `EZPlug` entity: last-known name, serial, state, and the shared
client handle, as stored by `__init__`. -/
structure EZPlug where
  _name : Option String
  _serial : Option String
  _state : Option Int
  _client : EzvizClient
  deriving Repr, DecidableEq

namespace EZPlug

/-- `is_on`: `self._state == 1`. -/
def is_on (a : EZPlug) : Bool :=
  a._state = some (1 : Int)

/-- `turn_on()`: if not `is_on`, issue `set_plug_state(client, serial, 1)`.
Returns the (unchanged) entity together with the calls issued. -/
def turn_on (a : EZPlug) : EZPlug × List Call :=
  if ¬ a.is_on then (a, set_plug_state a._serial 1) else (a, [])

/-- `turn_off()`: if `is_on`, issue `set_plug_state(client, serial, 0)`. -/
def turn_off (a : EZPlug) : EZPlug × List Call :=
  if a.is_on then (a, set_plug_state a._serial 0) else (a, [])

/-- `update()`: `get_plug_data(self.client, self.serial)`, then overwrite
`self._name` and `self._state`; exceptions propagate. -/
def update (a : EZPlug) : Except PyErr EZPlug :=
  match get_plug_data a._client a._serial with
  | .error e => .error e
  | .ok (name, _, state, _) =>
    .ok { a with _name := name, _state := state }

end EZPlug

/-- The configuration handed to `setup_platform`; `config.get(k)` yields
`none` for a missing key. -/
structure Config where
  username : Option String
  password : Option String
  deriving Repr, DecidableEq

/-- The parse loop of `setup_platform`: parse every plug, propagating the
first exception; keeps `(name, serial, state)` per record, discarding the
online flag, as the zip of the three accumulator lists does. -/
def parse_loop : List Plug →
    Except PyErr (List (Option String × Option String × Option Int))
  | [] => .ok []
  | plug :: rest =>
    match parse_plug_data plug with
    | .error e => .error e
    | .ok (name, serial, state, _) =>
      match parse_loop rest with
      | .error e => .error e
      | .ok l => .ok ((name, serial, state) :: l)

/-- `setup_platform(hass, config, add_entities)`: returns the trace of
client calls issued and either the list of registered `EZPlug` entities
or the exception that escaped.  `c` models the `EzvizClient` the function
constructs (its behaviour: login token and device mapping). -/
def setup_platform (config : Config) (c : EzvizClient) :
    List Call × Except PyErr (List EZPlug) :=
  if pyFalsy config.username ∨ pyFalsy config.password then
    ([], .ok [])
  else
    if pyFalsy c.token then
      ([Call.login], .ok [])
    else
      match parse_loop (get_plugs c) with
      | .error e => ([Call.login, Call.getDeviceInfos], .error e)
      | .ok parsed =>
        ([Call.login, Call.getDeviceInfos],
          .ok (parsed.map (fun t => ⟨t.1, t.2.1, t.2.2, c⟩)))

/-- Whether a record is the one `get_plug`'s comparison selects:
its `deviceInfos.deviceSerial` is present and equals the target. -/
def serialMatches (target : Option String) (p : Plug) : Bool :=
  match devInfoSerial p with
  | .ok s => some s = target
  | .error _ => false

/-! Concrete sample records and clients used as witnesses. -/

/-- A record with a `SWITCH` group holding one non-type-14 entry and no
`SWTITCH` key. -/
def plugSwitchNo14 : Plug := ⟨none, none, some [⟨13, 0⟩], none, none⟩

/-- A record with no `resourceInfos` group, an empty `SWITCH` group and
no `SWTITCH` key. -/
def plugSwitchEmpty : Plug := ⟨none, none, some [], none, none⟩

/-- A record whose `resourceInfos` serial is "ABC123" but whose
`deviceInfos` serial is "XYZ". -/
def plugMismatch : Plug :=
  ⟨some ⟨some "Plug A", some "ABC123"⟩, some ⟨some "XYZ"⟩, none, none, none⟩

/-- A well-formed record for serial "ABC123". -/
def plugA : Plug :=
  ⟨some ⟨some "Plug A", some "ABC123"⟩, some ⟨some "ABC123"⟩, none, none, none⟩

/-- A well-formed record for serial "DEF456". -/
def plugB : Plug :=
  ⟨some ⟨some "Plug B", some "DEF456"⟩, some ⟨some "DEF456"⟩, none, none, none⟩

/-- A client whose login succeeds and that owns only `plugA`. -/
def cOne : EzvizClient := ⟨some "tok", [("d1", plugA)]⟩

/-- A client whose login succeeds and that owns `plugA` and `plugB`. -/
def cTwo : EzvizClient := ⟨some "tok", [("d1", plugA), ("d2", plugB)]⟩

/-- A client whose login succeeds and that owns only `plugMismatch`. -/
def cMismatch : EzvizClient := ⟨some "tok", [("d1", plugMismatch)]⟩

end Ezviz

namespace Ezviz

/-- C1: the claim says that when the switch-capability group is present
with no type-14 entry, `parse` returns state absent.  On the code, a
record whose dict has the `SWITCH` key (one entry of type 13, so no
type-14 entry) but no `SWTITCH` key makes `parse_plug_data` raise
`KeyError("SWTITCH")` instead: the presence test uses key `SWITCH`
while the indexing uses key `SWTITCH`. -/
theorem C1_switch_typo_raises :
    parse_plug_data plugSwitchNo14 = .error (.keyError "SWTITCH") := by
  rfl

/-- C2: the claim says `parse` never raises on a missing capability
group.  On the code, a record missing the resource-info group (so name
and identifier would be absent) that has a `SWITCH` key but lacks the
`SWTITCH` key makes `parse_plug_data` raise `KeyError("SWTITCH")`:
the missing `SWTITCH` group key is indexed unguarded. -/
theorem C2_missing_swtitch_raises :
    parse_plug_data plugSwitchEmpty = .error (.keyError "SWTITCH") := by
  rfl

/-- C6: `is_on` is true exactly when the cached state is the number 1;
state 0, an absent state, or any other number (e.g. 2, which generic
boolean coercion would deem truthy) reads as false. -/
theorem C6_is_on_numeric_equality (a : EZPlug) :
    (a.is_on = true ↔ a._state = some 1) ∧
    ({ a with _state := some 0 } : EZPlug).is_on = false ∧
    ({ a with _state := none } : EZPlug).is_on = false ∧
    ({ a with _state := some 2 } : EZPlug).is_on = false := by
  refine ⟨?_, by simp [EZPlug.is_on], by simp [EZPlug.is_on],
    by simp [EZPlug.is_on]⟩
  simp [EZPlug.is_on]

/-- C7: `turn_on` issues no call when the cached state is 1 and exactly
one `switch_status(serial, 14, 1)` call otherwise; `turn_off` issues
exactly one `switch_status(serial, 14, 0)` call when the cached state
is 1 and none otherwise; neither changes the entity's fields. -/
theorem C7_turn_on_off_calls (a : EZPlug) :
    a.turn_on = (a, if a._state = some 1 then []
      else [Call.switchStatus a._serial 14 1]) ∧
    a.turn_off = (a, if a._state = some 1 then
      [Call.switchStatus a._serial 14 0] else []) := by
  by_cases h : a._state = some 1 <;>
    simp [EZPlug.turn_on, EZPlug.turn_off, EZPlug.is_on, set_plug_state, h]

/-- C10: when the `resourceInfos` group is present, `parse_plug_data`
indexes the `resourceName` and `deviceSerial` keys unconditionally, and
raises `KeyError` on whichever of them is missing (first the name, then
the serial) rather than returning absent fields. -/
theorem C10_resource_keys_unguarded (p : Plug) (ri : ResourceInfos)
    (h : p.resourceInfos = some ri) :
    (ri.resourceName = none →
      parse_plug_data p = .error (.keyError "resourceName")) ∧
    (∀ n, ri.resourceName = some n → ri.deviceSerial = none →
      parse_plug_data p = .error (.keyError "deviceSerial")) := by
  constructor
  · intro hn
    simp [parse_plug_data, h, hn]
  · intro n hn hs
    simp [parse_plug_data, h, hn, hs]

/-- Witness for C10 at a concrete record whose `resourceInfos` group is
present but empty. -/
theorem C10_resource_keys_unguarded_witness :
    parse_plug_data ⟨some ⟨none, none⟩, none, none, none, none⟩ =
      .error (.keyError "resourceName") :=
  (C10_resource_keys_unguarded ⟨some ⟨none, none⟩, none, none, none, none⟩
    ⟨none, none⟩ rfl).1 rfl

end Ezviz

namespace Ezviz

/-- Helper for C3: on a list of records that all carry a
`deviceInfos.deviceSerial`, the scan loop returns exactly the first
record whose device-info serial equals the target, and raises the
"No devices found" error exactly when no record matches. -/
theorem get_plug_loop_find (target : Option String) (l : List Plug)
    (h : ∀ p ∈ l, ∃ s, devInfoSerial p = .ok s) :
    (∀ r, get_plug_loop target l = .ok r ↔
      l.find? (serialMatches target) = some r) ∧
    (get_plug_loop target l = .error (.exception "No devices found") ↔
      ∀ p ∈ l, serialMatches target p = false) := by
  induction l with
  | nil =>
    constructor
    · intro r
      simp [get_plug_loop]
    · simp [get_plug_loop]
  | cons dev rest ih =>
    obtain ⟨s, hs⟩ := h dev (List.mem_cons_self dev rest)
    have hrest := ih (fun p hp => h p (List.mem_cons_of_mem dev hp))
    by_cases hm : some s = target
    · have hmatch : serialMatches target dev = true := by
        simp [serialMatches, hs, hm]
      constructor
      · intro r
        simp [get_plug_loop, hs, hm, List.find?_cons_of_pos _ hmatch]
      · constructor
        · intro habs
          simp [get_plug_loop, hs, hm] at habs
        · intro hall
          have := hall dev (List.mem_cons_self dev rest)
          rw [hmatch] at this
          exact absurd this (by simp)
    · have hmatch : serialMatches target dev = false := by
        simp [serialMatches, hs, hm]
      constructor
      · intro r
        rw [List.find?_cons_of_neg _ (by simp [hmatch])]
        have heq : get_plug_loop target (dev :: rest) =
            get_plug_loop target rest := by
          simp [get_plug_loop, hs, hm]
        rw [heq]
        exact hrest.1 r
      · have heq : get_plug_loop target (dev :: rest) =
            get_plug_loop target rest := by
          simp [get_plug_loop, hs, hm]
        rw [heq]
        constructor
        · intro he p hp
          rcases List.mem_cons.mp hp with hd | hr
          · rw [hd]; exact hmatch
          · exact (hrest.2.mp he) p hr
        · intro hall
          exact hrest.2.mpr (fun p hp => hall p (List.mem_cons_of_mem dev hp))

/-- C3 counterexample: a device set with exactly one record whose
resource-info serial is "ABC123"; `get_plug` with identifier "ABC123"
signals the not-found error instead of returning that record, because
the code compares the `deviceInfos` serial ("XYZ" here), not the
`resourceInfos` serial. -/
theorem C3_resource_serial_not_compared :
    plugMismatch.resourceInfos = some ⟨some "Plug A", some "ABC123"⟩ ∧
    get_plug cMismatch (some "ABC123") =
      .error (.exception "No devices found") := by
  constructor
  · rfl
  · rfl

/-- C3 amended: `get_plug` scans the sequence returned by `get_plugs`
in order, comparing each record's device-info serial
(`deviceInfos.deviceSerial`, a different group than the parser's
`resourceInfos`) to the identifier; provided every record carries that
field, it returns the first record whose device-info serial matches,
and signals the not-found error if and only if no record matches. -/
theorem C3_first_match_on_device_serial (c : EzvizClient)
    (target : Option String)
    (h : ∀ p ∈ get_plugs c, ∃ s, devInfoSerial p = .ok s) :
    (∀ r, get_plug c target = .ok r ↔
      (get_plugs c).find? (serialMatches target) = some r) ∧
    (get_plug c target = .error (.exception "No devices found") ↔
      ∀ p ∈ get_plugs c, serialMatches target p = false) :=
  get_plug_loop_find target (get_plugs c) h

/-- Witness for C3 amended: on the one-record client `cOne` the lookup
for "ABC123" returns `plugA`, the first (and only) matching record. -/
theorem C3_first_match_on_device_serial_witness :
    get_plug cOne (some "ABC123") = .ok plugA :=
  ((C3_first_match_on_device_serial cOne (some "ABC123")
    (by intro p hp
        simp [get_plugs, cOne] at hp
        exact ⟨"ABC123", by rw [hp]; rfl⟩)).1 plugA).mpr (by rfl)

end Ezviz

namespace Ezviz

/-- C4: whenever login yields a falsy token (absent or empty), the
platform setup registers no entities and the call trace contains no
device-enumeration call — only the login itself (or nothing at all when
the credentials were already falsy and login was never reached). -/
theorem C4_falsy_token_aborts (config : Config) (c : EzvizClient)
    (h : pyFalsy c.token = true) :
    (setup_platform config c).2 = .ok [] ∧
    Call.getDeviceInfos ∉ (setup_platform config c).1 := by
  by_cases hc : pyFalsy config.username ∨ pyFalsy config.password
  · simp [setup_platform, hc]
  · simp [setup_platform, hc, h]

/-- Witness for C4: valid credentials, client whose login returns no
token. -/
theorem C4_falsy_token_aborts_witness :
    (setup_platform ⟨some "u", some "p"⟩ ⟨none, []⟩).2 = .ok [] ∧
    Call.getDeviceInfos ∉ (setup_platform ⟨some "u", some "p"⟩ ⟨none, []⟩).1 :=
  C4_falsy_token_aborts ⟨some "u", some "p"⟩ ⟨none, []⟩ rfl

/-- C5: with truthy credentials and token and exactly two device
records, both parsing successfully, setup registers exactly two
entities, in order, each holding the name, serial and state parsed from
its source record (and the shared client). -/
theorem C5_two_records_two_entities (config : Config) (c : EzvizClient)
    (k1 k2 : String) (r1 r2 : Plug)
    (n1 s1 : Option String) (st1 o1 : Option Int)
    (n2 s2 : Option String) (st2 o2 : Option Int)
    (hu : pyFalsy config.username = false)
    (hp : pyFalsy config.password = false)
    (ht : pyFalsy c.token = false)
    (hd : c.devices = [(k1, r1), (k2, r2)])
    (h1 : parse_plug_data r1 = .ok (n1, s1, st1, o1))
    (h2 : parse_plug_data r2 = .ok (n2, s2, st2, o2)) :
    (setup_platform config c).2 =
      .ok [⟨n1, s1, st1, c⟩, ⟨n2, s2, st2, c⟩] := by
  simp [setup_platform, hu, hp, ht, get_plugs, hd, parse_loop, h1, h2]

/-- Witness for C5 on the two-plug client `cTwo`. -/
theorem C5_two_records_two_entities_witness :
    (setup_platform ⟨some "u", some "p"⟩ cTwo).2 =
      .ok [⟨some "Plug A", some "ABC123", none, cTwo⟩,
           ⟨some "Plug B", some "DEF456", none, cTwo⟩] :=
  C5_two_records_two_entities ⟨some "u", some "p"⟩ cTwo "d1" "d2"
    plugA plugB (some "Plug A") (some "ABC123") none none
    (some "Plug B") (some "DEF456") none none
    rfl rfl rfl rfl rfl rfl

/-- C8: `update` re-runs the lookup-and-parse with the entity's own
serial against its own client; any error (in particular the not-found
error) propagates unchanged, and on success only `_name` and `_state`
are overwritten — `_serial` and `_client` are the entity's originals. -/
theorem C8_update_overwrites_name_state (a : EZPlug) :
    (∀ e, get_plug_data a._client a._serial = .error e →
      a.update = .error e) ∧
    (∀ n s st o, get_plug_data a._client a._serial = .ok (n, s, st, o) →
      a.update = .ok ⟨n, a._serial, st, a._client⟩) := by
  constructor
  · intro e he
    simp [EZPlug.update, he]
  · intro n s st o hok
    simp [EZPlug.update, hok]

/-- Witness for C8: refreshing an entity for serial "ABC123" against
`cOne` overwrites its name and state from `plugA` and keeps its serial
and client. -/
theorem C8_update_overwrites_name_state_witness :
    EZPlug.update ⟨none, some "ABC123", some 0, cOne⟩ =
      .ok ⟨some "Plug A", some "ABC123", none, cOne⟩ :=
  (C8_update_overwrites_name_state ⟨none, some "ABC123", some 0, cOne⟩).2
    (some "Plug A") (some "ABC123") none none rfl

/-- C9: with a missing or empty username or password, setup returns
immediately: the call trace is empty (no login, no device enumeration)
and no entity is registered. -/
theorem C9_missing_credentials_return (config : Config) (c : EzvizClient)
    (h : pyFalsy config.username = true ∨ pyFalsy config.password = true) :
    setup_platform config c = ([], .ok []) := by
  rcases h with h | h <;> simp [setup_platform, h]

/-- Witness for C9: missing username. -/
theorem C9_missing_credentials_return_witness :
    setup_platform ⟨none, some "p"⟩ cOne = ([], .ok []) :=
  C9_missing_credentials_return ⟨none, some "p"⟩ cOne (Or.inl rfl)

end Ezviz
